import Mathlib

/-!
Verification of the MedAI front-end Session Controller
(`src/frontend/script.js`, class `MedAIApp`).

The controller's observable state (module globals `currentUser` and
`chatHistory`, the rendered transcript, toast notifications, the send-button
disabled flag, the loading overlay, the selected upload file, `localStorage`,
and the sequence of HTTP requests issued) is embedded as the structure
`AppState`.  Backend behaviour is an explicit oracle (`Oracle`) scripting the
outcome of each `fetch`; every operation of the controller is a total state
transformer `AppState → Oracle → AppState`, with JavaScript `throw` sites
modelled as `Except` values that are consumed by the explicit `try/catch`
structure of the source.

`localStorage` stores JSON strings; it is modelled at the granularity of the
parsed values actually read back by the code.  DOM-only view glue (markdown
rendering, scroll position, modal overlays other than the loading overlay,
auto-resize, drag styling, toast auto-removal timers) is outside the model,
as the specification scopes it out.
-/

/-- A user identity record `{id, name, email}` as returned by `POST /users`
or synthesized locally as a mock user. -/
structure User where
  id : Int
  name : String
  email : String
deriving DecidableEq

/-- A persisted chat history record `{query, response, timestamp}`
(`saveChatHistory`). -/
structure ChatHistoryEntry where
  query : String
  response : String
  timestamp : String
deriving DecidableEq

/-- The tag passed to `addMessage`: `'user'` or `'bot'`. -/
inductive MsgType where
  | user
  | bot
deriving DecidableEq

/-- One rendered chat message (`addMessage` creates a `.message` div with the
given content and type; the displayed clock time is view glue). -/
structure TranscriptEntry where
  content : String
  type : MsgType
deriving DecidableEq

/-- Toast kind: `showToast`'s `type` parameter, `'success'` (default) or
`'error'`. -/
inductive ToastType where
  | success
  | error
deriving DecidableEq

/-- A toast notification created by `showToast`. -/
structure Toast where
  message : String
  type : ToastType
deriving DecidableEq

/-- The `File` fields the code inspects: `name`, `type` (MIME), `size`
(bytes). -/
structure FileModel where
  name : String
  type : String
  size : Nat
deriving DecidableEq

/-- The two `localStorage` keys the controller uses, holding the parsed form
of the JSON the code stores under `medai_user` and `medai_chat_history`. -/
structure Store where
  medai_user : Option User
  medai_chat_history : Option (List ChatHistoryEntry)
deriving DecidableEq

/-- Demographics block of the `POST /predict` payload. -/
structure Demographics where
  age : Int
  gender : String
deriving DecidableEq

/-- Vitals block of the `POST /predict` payload. -/
structure Vitals where
  bmi : ℚ
  glucose : Int
  blood_pressure : Int
  diabetes_pedigree : ℚ
  pregnancies : Int
  skin_thickness : ℚ
  insulin : Int
deriving DecidableEq

/-- The `POST /predict` request body built by `submitPredictionForm`
(`lifestyle`/`symptoms` carry their single `description` field). -/
structure PredictionData where
  user_id : Int
  demographics : Demographics
  lifestyle : String
  symptoms : String
  vitals : Vitals
deriving DecidableEq

/-- One HTTP request issued by the controller, identified by endpoint (with
the payload fields the claims are about). -/
inductive Call where
  | users (email : String)
  | chat (query : String)
  | predict (data : PredictionData)
  | analyzeReport
  | historyPredictions
  | historyChats
  | historyReports
  | generateReport
deriving DecidableEq

/-- Does a call target `POST /users`? -/
def Call.isUsers : Call → Bool
  | .users _ => true
  | _ => false

/-- The observable state of the Session Controller. -/
structure AppState where
  currentUser : Option User
  chatHistory : List ChatHistoryEntry
  transcript : List TranscriptEntry
  toasts : List Toast
  sendBtnDisabled : Bool
  loadingVisible : Bool
  messageInputValue : String
  selectedFile : Option FileModel
  localStore : Store
  calls : List Call
deriving DecidableEq

/-- Model of JavaScript `String.prototype.trim`: strip leading and trailing
whitespace. -/
def jsTrim (s : String) : String :=
  ⟨((s.data.dropWhile fun c => c.isWhitespace).reverse.dropWhile fun c =>
      c.isWhitespace).reverse⟩

/-- Model of JavaScript `str.substring(0, n)`: the first `n` characters. -/
def jsTake (s : String) (n : Nat) : String :=
  ⟨s.data.take n⟩

/-- JavaScript `x || d` for a string `x` that may be `null`/`undefined`
(`none`): the empty string and `null` are falsy. -/
def jsOrStr (x : Option String) (d : String) : String :=
  match x with
  | none => d
  | some s => if s = "" then d else s

/-- JavaScript `parseInt(...) || d`: `none` models `NaN` (absent or
non-numeric input); `0` is falsy, so it is also replaced by the default. -/
def jsOrInt (x : Option Int) (d : Int) : Int :=
  match x with
  | none => d
  | some v => if v = 0 then d else v

/-- JavaScript `parseFloat(...) || d`: `none` models `NaN`; `0` is falsy. -/
def jsOrRat (x : Option ℚ) (d : ℚ) : ℚ :=
  match x with
  | none => d
  | some v => if v = 0 then d else v

/-- JavaScript falsiness of a nullable numeric id (`!predictionId`):
`null` and `0` are falsy. -/
def jsFalsyId (x : Option Int) : Bool :=
  match x with
  | none => true
  | some n => n == 0

/-- `addMessage(content, type)`: append one message to the rendered
transcript (clearing the welcome screen and markdown rendering are view
glue). -/
def addMessage (st : AppState) (content : String) (type : MsgType) : AppState :=
  { st with transcript := st.transcript ++ [⟨content, type⟩] }

/-- `showToast(message, type)`: append a transient notification (the 5 s
auto-removal timer is view glue). -/
def showToast (st : AppState) (message : String) (type : ToastType) : AppState :=
  { st with toasts := st.toasts ++ [⟨message, type⟩] }

/-- `showLoading(message)`: display the loading overlay. -/
def showLoading (st : AppState) (_message : String) : AppState :=
  { st with loadingVisible := true }

/-- `hideLoading()`: hide the loading overlay. -/
def hideLoading (st : AppState) : AppState :=
  { st with loadingVisible := false }

/-- Record that a `fetch` to the given endpoint was issued. -/
def logCall (st : AppState) (c : Call) : AppState :=
  { st with calls := st.calls ++ [c] }

/-- `clearFile()`: reset the file input (`fileInput.value = ''`). -/
def clearFile (st : AppState) : AppState :=
  { st with selectedFile := none }

/-- Outcome of one `POST /users` request, as `createUser` distinguishes
them: a 2xx response carrying a user record; a 400 response whose JSON body
has `detail: "Email already registered"`; or any other failure (other
non-ok status, a body that is not the expected JSON, or a network
rejection) — all of which reach the `catch`. -/
inductive CreateUserResult where
  | ok (u : User)
  | dupEmail
  | failure
deriving DecidableEq

/-- Outcome of the `POST /chat` request in `callGeminiAPI`: a 2xx response
whose parsed body may carry `answer` and/or `response` string fields, or a
failure (non-ok status or rejection), which makes `callGeminiAPI` throw. -/
inductive ChatResult where
  | ok (answer : Option String) (response : Option String)
  | fail
deriving DecidableEq

/-- Outcome of the `POST /predict` request. -/
inductive PredictResult where
  | ok (disease : String) (risk : ℚ) (explanation : String)
      (recommendations : String)
  | fail
deriving DecidableEq

/-- Outcome of the `POST /analyze-report` request; `findings`/`advice` may
be absent from the response body. -/
inductive AnalyzeResult where
  | ok (findings : Option String) (advice : Option String)
  | fail
deriving DecidableEq

/-- Outcome of one `GET /history/...` request: either a failure (non-ok
status or rejection — both leave the looked-up id `null`) or an ok response
whose body is a list of records, modelled by their `id` fields, newest
first. -/
inductive HistoryResult where
  | ok (ids : List Int)
  | fail
deriving DecidableEq

/-- Outcome of the `POST /generate-report` request: a PDF body, a non-PDF
(JSON) body, or a failure (non-ok status, rejection, or unparseable
body). -/
inductive GenerateResult where
  | pdf
  | jsonBody
  | fail
deriving DecidableEq

/-- Scripted environment for one controller operation: the outcome of every
backend call it may issue, plus the ambient clock.  `createUserResponses`
scripts successive `POST /users` attempts (an exhausted script means the
fetch rejects); `clock` scripts successive `Date.now()` readings used to
generate guest emails; `mockId` scripts `Math.floor(Math.random()*1000)+1`;
`now` scripts the ISO timestamp used for history entries. -/
structure Oracle where
  createUserResponses : List CreateUserResult
  clock : List Nat
  mockId : Int
  chatResponse : ChatResult
  predictResponse : PredictResult
  analyzeResponse : AnalyzeResult
  predictionsHistory : HistoryResult
  chatsHistory : HistoryResult
  reportsHistory : HistoryResult
  generateResponse : GenerateResult
  now : String

/-- `createUser(name, email)` (script.js lines 263-303).  Issues
`POST /users` with `{name: name || 'Guest User', email: email || uniqueEmail}`.
On 400 + "Email already registered" it recursively retries with the freshly
generated email `guest-<Date.now()>-retry@example.com`; on success it
persists the user and shows a success toast; on any other failure the
`catch` synthesizes a mock user (random id, fixed name, generated email) and
persists it.  Returns the resulting user together with the updated state.
The head of `clock` models the `Date.now()` readings taken during this
attempt. -/
def createUser (st : AppState) (rs : List CreateUserResult) (clock : List Nat)
    (mockId : Int) (name email : String) : User × AppState :=
  let t := clock.headD 0
  let uniqueEmail := s!"guest-{t}@example.com"
  let sentName := if name = "" then "Guest User" else name
  let sentEmail := if email = "" then uniqueEmail else email
  let st1 := logCall st (Call.users sentEmail)
  match rs with
  | CreateUserResult.dupEmail :: rest =>
      createUser st1 rest clock.tail mockId sentName
        s!"guest-{t}-retry@example.com"
  | CreateUserResult.ok u :: _ =>
      let st2 := { st1 with
        localStore := { st1.localStore with medai_user := some u } }
      let st3 := showToast st2 "User profile created successfully!"
        ToastType.success
      (u, st3)
  | _ =>
      -- non-duplicate failure or rejected fetch: the catch block runs
      let mock : User := ⟨mockId, "Guest User", s!"guest-{t}@example.com"⟩
      let st2 := { st1 with
        localStore := { st1.localStore with medai_user := some mock } }
      (mock, st2)

/-- The `if (!currentUser) currentUser = await this.createUser('Guest User',
'guest@example.com')` preamble shared by `sendMessage`,
`submitPredictionForm`, `analyzeReport` and `generateReport`. -/
def ensureUser (st : AppState) (o : Oracle) : AppState :=
  match st.currentUser with
  | some _ => st
  | none =>
      let r := createUser st o.createUserResponses o.clock o.mockId
        "Guest User" "guest@example.com"
      { r.2 with currentUser := some r.1 }

/-- The id of the current user (`currentUser.id`); the `0` arm is the
JavaScript `TypeError` case of reading `.id` on `null`, unreachable after
`ensureUser` since `createUser` always returns a user. -/
def currentUserId (st : AppState) : Int :=
  match st.currentUser with
  | some u => u.id
  | none => 0

/-- `callGeminiAPI(query)` (lines 238-261): throws if no user exists, else
issues `POST /chat`; a non-ok response makes it throw, a 2xx response
yields `data.answer || data.response || 'I received your message but got an
unexpected response.'`.  `Except.error` models a thrown exception. -/
def callGeminiAPI (st : AppState) (query : String) (r : ChatResult) :
    AppState × Except String String :=
  match st.currentUser with
  | none => (st, Except.error "User not created")
  | some _ =>
      let st1 := logCall st (Call.chat query)
      match r with
      | ChatResult.fail => (st1, Except.error "API request failed")
      | ChatResult.ok a b =>
          (st1, Except.ok (jsOrStr a (jsOrStr b
            "I received your message but got an unexpected response.")))

/-- `saveChatHistory(query, response)` (lines 317-330): push one entry,
keep only the last 50 (`slice(-50)`), and persist the result under the
`medai_chat_history` key. -/
def saveChatHistory (st : AppState) (query response now : String) : AppState :=
  let h := st.chatHistory ++ [⟨query, response, now⟩]
  let h2 := if h.length > 50 then h.drop (h.length - 50) else h
  { st with
    chatHistory := h2
    localStore := { st.localStore with medai_chat_history := some h2 } }

/-- `sendMessage()` (lines 145-182): no-op on a whitespace-only input;
otherwise render the user message, clear the input, disable the send
button, ensure an identity, call the chat backend, and on success render
the reply and record history while on any failure toast an error and render
a generic apology; the `finally` re-enables the send button on every exit
path of the try/catch. -/
def sendMessage (st0 : AppState) (o : Oracle) : AppState :=
  let message := jsTrim st0.messageInputValue
  if message = "" then st0
  else
    let st1 := addMessage st0 message MsgType.user
    let st2 := { st1 with messageInputValue := "" }
    let st3 := { st2 with sendBtnDisabled := true }
    let st4 := ensureUser st3 o
    { (match callGeminiAPI st4 message o.chatResponse with
       | (st5, Except.ok resp) =>
           saveChatHistory (addMessage st5 resp MsgType.bot) message resp o.now
       | (st5, Except.error _) =>
           addMessage
             (showToast st5 "Error sending message. Please try again."
               ToastType.error)
             "Sorry, I encountered an error. Please try again." MsgType.bot)
      with sendBtnDisabled := false }

/-- `loadUserData()` (lines 305-315): adopt the persisted identity and the
persisted chat history verbatim when present. -/
def loadUserData (st : AppState) : AppState :=
  let st1 :=
    match st.localStore.medai_user with
    | some u => { st with currentUser := some u }
    | none => st
  match st1.localStore.medai_chat_history with
  | some h => { st1 with chatHistory := h }
  | none => st1

/-- The raw prediction form fields as read by `formData.get`: for numeric
fields, `none` models an absent field or non-numeric text (where
`parseInt`/`parseFloat` yield `NaN`), `some v` a parsed numeric value; for
text fields, `none` models an absent field. -/
structure FormDataModel where
  age : Option Int
  gender : Option String
  lifestyle : Option String
  symptoms : Option String
  bmi : Option ℚ
  glucose : Option Int
  blood_pressure : Option Int
  diabetes_pedigree : Option ℚ
  pregnancies : Option Int
  skin_thickness : Option ℚ
  insulin : Option Int
deriving DecidableEq

/-- The `predictionData` object built by `submitPredictionForm`
(lines 384-405), with each field coerced through JavaScript `||`
defaulting. -/
def buildPredictionData (uid : Int) (f : FormDataModel) : PredictionData :=
  { user_id := uid
    demographics :=
      { age := jsOrInt f.age 30
        gender := jsOrStr f.gender "unknown" }
    lifestyle := jsOrStr f.lifestyle "Not specified"
    symptoms := jsOrStr f.symptoms "No symptoms reported"
    vitals :=
      { bmi := jsOrRat f.bmi 25
        glucose := jsOrInt f.glucose 100
        blood_pressure := jsOrInt f.blood_pressure 120
        diabetes_pedigree := jsOrRat f.diabetes_pedigree 0.5
        pregnancies := jsOrInt f.pregnancies 0
        skin_thickness := jsOrRat f.skin_thickness 20
        insulin := jsOrInt f.insulin 80 } }

/-- Model of JavaScript `q.toFixed(1)` for the non-negative rationals the
risk display uses: one decimal digit, rounding to nearest. -/
def toFixed1 (q : ℚ) : String :=
  let n : Int := round (q * 10)
  s!"{n / 10}.{(n % 10).natAbs}"

/-- The `predictionMessage` template literal (lines 426-435), including its
leading newline and trailing indentation. -/
def predictionMessage (disease : String) (risk : ℚ)
    (explanation recommendations : String) : String :=
  "\nDisease: " ++ disease ++ "\nRisk: " ++ toFixed1 (risk * 100) ++
    "%\n\nExplanation:\n" ++ explanation ++ "\n\nRecommendations:\n" ++
    recommendations ++ "\n            "

/-- `submitPredictionForm()` (lines 376-448): ensure an identity, build the
coerced payload, show the loading overlay, issue `POST /predict`; on
success render the formatted result and toast success (closing the modal
and resetting the form are view glue), on failure toast an error; the
`finally` hides the loading overlay on every exit path. -/
def submitPredictionForm (st : AppState) (f : FormDataModel) (o : Oracle) :
    AppState :=
  let st1 := ensureUser st o
  let data := buildPredictionData (currentUserId st1) f
  let st2 := showLoading st1 "Calculating your health risk..."
  let st3 := logCall st2 (Call.predict data)
  hideLoading
    (match o.predictResponse with
     | PredictResult.ok disease risk explanation recommendations =>
         showToast
           (addMessage st3
             (predictionMessage disease risk explanation recommendations)
             MsgType.bot)
           "Risk assessment completed successfully!" ToastType.success
     | PredictResult.fail =>
         showToast st3 "Error calculating risk. Please try again."
           ToastType.error)

/-- `handleFileSelect(event)` (lines 450-476): adopt the chosen file; do
nothing when there is none; reject a non-PDF MIME type, then a size above
10 MiB, each with its own error toast and a cleared input; otherwise keep
the file (showing the preview is view glue). -/
def handleFileSelect (st : AppState) (file : Option FileModel) : AppState :=
  let st1 := { st with selectedFile := file }
  match file with
  | none => st1
  | some f =>
      if f.type ≠ "application/pdf" then
        clearFile (showToast st1 "Please select a PDF file" ToastType.error)
      else if f.size > 10 * 1024 * 1024 then
        clearFile (showToast st1
          "File too large. Please select a file under 10MB." ToastType.error)
      else st1

/-- The `analysisMessage` template literal (lines 529-537). -/
def analysisMessage (findings advice : Option String) : String :=
  "\nMedical Report Analysis:\n\nFindings:\n" ++
    jsOrStr findings "No specific findings" ++ "\n\nAdvice:\n" ++
    jsOrStr advice "Please consult with a healthcare professional" ++
    "\n            "

/-- `analyzeReport()` (lines 496-550): reject a missing file locally with a
toast and no backend call; otherwise ensure an identity, show the loading
overlay, upload the file; on success render findings/advice, clear the file
and toast success, on failure toast an error; the `finally` hides the
loading overlay on every exit path. -/
def analyzeReport (st : AppState) (o : Oracle) : AppState :=
  match st.selectedFile with
  | none => showToast st "Please select a PDF file first" ToastType.error
  | some _ =>
      let st1 := ensureUser st o
      let st2 := showLoading st1 "Analyzing your medical report..."
      let st3 := logCall st2 Call.analyzeReport
      hideLoading
        (match o.analyzeResponse with
         | AnalyzeResult.ok findings advice =>
             showToast
               (clearFile (addMessage st3 (analysisMessage findings advice)
                 MsgType.bot))
               "Report analysis completed successfully!" ToastType.success
         | AnalyzeResult.fail =>
             showToast st3 "Error analyzing report. Please try again."
               ToastType.error)

/-- The id extracted from one best-effort history lookup: `records[0].id`
when the response is ok and non-empty, else `null`. -/
def latestId : HistoryResult → Option Int
  | HistoryResult.fail => none
  | HistoryResult.ok ids => ids.head?

/-- The `reportMessage` template literal of `createFallbackReport`
(lines 658-674): a heading, the chat-history queries truncated to 50
characters, and fixed generic health advice. -/
def fallbackReportMessage (hist : List ChatHistoryEntry) : String :=
  "\n# Health Summary Report\n\nBased on our conversation, here\x27s a summary of your health inquiries:\n\n## Topics Discussed\n" ++
    String.intercalate "\n"
      (hist.map fun chat => "* " ++ jsTake chat.query 50 ++ "...") ++
    "\n\n## General Health Advice\n* Maintain a balanced diet with plenty of fruits and vegetables\n* Exercise regularly (at least 30 minutes most days)\n* Get 7-9 hours of quality sleep each night\n* Stay hydrated by drinking plenty of water\n* Manage stress through relaxation techniques\n\n*Note: This is a general health summary. For personalized medical advice, please consult with a healthcare professional.*\n        "

/-- `createFallbackReport()` (lines 656-678): render the locally
synthesized summary into the transcript and toast. -/
def createFallbackReport (st : AppState) : AppState :=
  showToast (addMessage st (fallbackReportMessage st.chatHistory) MsgType.bot)
    "Health summary created based on our conversation" ToastType.success

/-- `generateReport()` (lines 552-654): ensure an identity, show the
loading overlay, perform the three independent best-effort history lookups;
if all three ids are falsy, hide the overlay and render the local fallback
report with no `POST /generate-report`; otherwise issue
`POST /generate-report` and toast according to the outcome (the PDF
download mechanics are view glue); the `finally` hides the loading overlay
on every exit path. -/
def generateReport (st : AppState) (o : Oracle) : AppState :=
  let st1 := ensureUser st o
  let st2 := showLoading st1 "Generating your health report..."
  let st3 := logCall st2 Call.historyPredictions
  let predictionId := latestId o.predictionsHistory
  let st4 := logCall st3 Call.historyChats
  let chatId := latestId o.chatsHistory
  let st5 := logCall st4 Call.historyReports
  let reportId := latestId o.reportsHistory
  hideLoading
    (if jsFalsyId predictionId && jsFalsyId chatId && jsFalsyId reportId then
      createFallbackReport (hideLoading st5)
    else
      let st6 := logCall st5 Call.generateReport
      match o.generateResponse with
      | GenerateResult.pdf =>
          showToast st6 "Health report downloaded successfully!"
            ToastType.success
      | GenerateResult.jsonBody =>
          showToast st6 "Report generated successfully!" ToastType.success
      | GenerateResult.fail =>
          showToast st6 "Error generating report. Please try again."
            ToastType.error)

/-- `startNewChat()` (lines 680-719): reset the transcript to the welcome
screen, clear the in-memory chat history, remove the persisted
`medai_chat_history` key, and toast. -/
def startNewChat (st : AppState) : AppState :=
  let st1 := { st with transcript := [] }
  let st2 := { st1 with
    chatHistory := []
    localStore := { st1.localStore with medai_chat_history := none } }
  showToast st2 "New conversation started" ToastType.success

/-- `createUser` never touches the rendered transcript. -/
theorem createUser_transcript (rs : List CreateUserResult) (st : AppState)
    (clock : List Nat) (mockId : Int) (name email : String) :
    (createUser st rs clock mockId name email).2.transcript = st.transcript := by
  induction rs generalizing st clock name email with
  | nil => rfl
  | cons r rest ih =>
    cases r with
    | dupEmail => simpa [createUser, logCall] using ih ..
    | ok u => rfl
    | failure => rfl

/-- `createUser` never touches the in-memory chat history. -/
theorem createUser_chatHistory (rs : List CreateUserResult) (st : AppState)
    (clock : List Nat) (mockId : Int) (name email : String) :
    (createUser st rs clock mockId name email).2.chatHistory =
      st.chatHistory := by
  induction rs generalizing st clock name email with
  | nil => rfl
  | cons r rest ih =>
    cases r with
    | dupEmail => simpa [createUser, logCall] using ih ..
    | ok u => rfl
    | failure => rfl

/-- Every request `createUser` issues targets `POST /users`, so the number
of calls to any other endpoint is unchanged. -/
theorem createUser_calls_count (rs : List CreateUserResult) (st : AppState)
    (clock : List Nat) (mockId : Int) (name email : String) (c : Call)
    (hc : c.isUsers = false) :
    (createUser st rs clock mockId name email).2.calls.count c =
      st.calls.count c := by
  have husers : ∀ e : String, c ≠ Call.users e := by
    intro e he
    rw [he] at hc
    simp [Call.isUsers] at hc
  induction rs generalizing st clock name email with
  | nil =>
    simp [createUser, logCall, List.count_append, List.count_cons, husers]
  | cons r rest ih =>
    cases r with
    | dupEmail =>
      simp only [createUser, logCall]
      rw [ih]
      simp [List.count_append, List.count_cons, husers]
    | ok u =>
      simp [createUser, logCall, showToast, List.count_append,
        List.count_cons, husers]
    | failure =>
      simp [createUser, logCall, List.count_append, List.count_cons, husers]

/-- `ensureUser` never touches the rendered transcript. -/
theorem ensureUser_transcript (st : AppState) (o : Oracle) :
    (ensureUser st o).transcript = st.transcript := by
  cases hcu : st.currentUser with
  | some u => simp [ensureUser, hcu]
  | none => simp [ensureUser, hcu, createUser_transcript]

/-- `ensureUser` never touches the in-memory chat history. -/
theorem ensureUser_chatHistory (st : AppState) (o : Oracle) :
    (ensureUser st o).chatHistory = st.chatHistory := by
  cases hcu : st.currentUser with
  | some u => simp [ensureUser, hcu]
  | none => simp [ensureUser, hcu, createUser_chatHistory]

/-- After `ensureUser` an identity always exists. -/
theorem ensureUser_currentUser_isSome (st : AppState) (o : Oracle) :
    ∃ u, (ensureUser st o).currentUser = some u := by
  cases hcu : st.currentUser with
  | some u => exact ⟨u, by simp [ensureUser, hcu]⟩
  | none =>
    refine ⟨(createUser st o.createUserResponses o.clock o.mockId "Guest User"
      "guest@example.com").1, ?_⟩
    simp [ensureUser, hcu]

/-- `ensureUser` issues only `POST /users` requests. -/
theorem ensureUser_calls_count (st : AppState) (o : Oracle) (c : Call)
    (hc : c.isUsers = false) :
    (ensureUser st o).calls.count c = st.calls.count c := by
  cases hcu : st.currentUser with
  | some u => simp [ensureUser, hcu]
  | none => simp [ensureUser, hcu, createUser_calls_count _ _ _ _ _ _ _ hc]

/-- A concrete backend-confirmed user for witnesses. -/
def wUser : User := ⟨1, "Guest User", "guest@example.com"⟩

/-- A concrete oracle in which every backend call fails. -/
def wOracle : Oracle :=
  { createUserResponses := []
    clock := []
    mockId := 7
    chatResponse := ChatResult.fail
    predictResponse := PredictResult.fail
    analyzeResponse := AnalyzeResult.fail
    predictionsHistory := HistoryResult.fail
    chatsHistory := HistoryResult.fail
    reportsHistory := HistoryResult.fail
    generateResponse := GenerateResult.fail
    now := "2026-01-01T00:00:00.000Z" }

/-- A small valid PDF file. -/
def wPdfFile : FileModel := ⟨"report.pdf", "application/pdf", 2048⟩

/-- A concrete session state with an identity, a typed message and a chosen
file. -/
def wState : AppState :=
  { currentUser := some wUser
    chatHistory := []
    transcript := []
    toasts := []
    sendBtnDisabled := false
    loadingVisible := false
    messageInputValue := "hello"
    selectedFile := some wPdfFile
    localStore := ⟨some wUser, none⟩
    calls := [] }

/-- The same state with a whitespace-only input and no chosen file. -/
def wStateIdle : AppState :=
  { wState with messageInputValue := "   ", selectedFile := none }

/-- A prediction form with every field absent. -/
def wFormNone : FormDataModel :=
  ⟨none, none, none, none, none, none, none, none, none, none, none⟩

/-- C1: every Session Controller operation (sendMessage,
submitPredictionForm, analyzeReport, generateReport) is a total state
transformer for every scripted backend outcome — no exception escapes — and
the busy indicator each operation sets (the disabled send control for
sendMessage, the loading overlay for the other three) is cleared on every
exit path; the early-exit paths of sendMessage (blank input) and
analyzeReport (no file) never set their indicator in the first place. -/
theorem C1_busy_indicator_cleared (st : AppState) (o : Oracle)
    (f : FormDataModel) (file : FileModel) :
    (jsTrim st.messageInputValue ≠ "" →
      (sendMessage st o).sendBtnDisabled = false) ∧
    (jsTrim st.messageInputValue = "" → sendMessage st o = st) ∧
    (submitPredictionForm st f o).loadingVisible = false ∧
    (st.selectedFile = some file →
      (analyzeReport st o).loadingVisible = false) ∧
    (st.selectedFile = none →
      analyzeReport st o =
        showToast st "Please select a PDF file first" ToastType.error) ∧
    (generateReport st o).loadingVisible = false := by
  refine ⟨?_, ?_, ?_, ?_, ?_, ?_⟩
  · intro h
    simp only [sendMessage, if_neg h]
  · intro h
    simp only [sendMessage, if_pos h]
  · rfl
  · intro h
    simp only [analyzeReport, h]
    rfl
  · intro h
    simp only [analyzeReport, h]
  · rfl

/-- Witness for C1 at concrete states and a failing backend. -/
theorem C1_busy_indicator_cleared_witness :
    (sendMessage wState wOracle).sendBtnDisabled = false ∧
    sendMessage wStateIdle wOracle = wStateIdle ∧
    (submitPredictionForm wState wFormNone wOracle).loadingVisible = false ∧
    (analyzeReport wState wOracle).loadingVisible = false ∧
    analyzeReport wStateIdle wOracle =
      showToast wStateIdle "Please select a PDF file first" ToastType.error ∧
    (generateReport wState wOracle).loadingVisible = false :=
  ⟨(C1_busy_indicator_cleared wState wOracle wFormNone wPdfFile).1 (by decide),
   (C1_busy_indicator_cleared wStateIdle wOracle wFormNone wPdfFile).2.1
     (by decide),
   (C1_busy_indicator_cleared wState wOracle wFormNone wPdfFile).2.2.1,
   (C1_busy_indicator_cleared wState wOracle wFormNone wPdfFile).2.2.2.1 rfl,
   (C1_busy_indicator_cleared wStateIdle wOracle wFormNone wPdfFile).2.2.2.2.1
     rfl,
   (C1_busy_indicator_cleared wState wOracle wFormNone wPdfFile).2.2.2.2.2⟩

/-- The history kept by `saveChatHistory` is the appended sequence with its
oldest overflow dropped. -/
theorem saveChatHistory_chatHistory (st : AppState)
    (query response now : String) :
    (saveChatHistory st query response now).chatHistory =
      (st.chatHistory ++ [(⟨query, response, now⟩ : ChatHistoryEntry)]).drop
        (st.chatHistory.length + 1 - 50) := by
  simp only [saveChatHistory]
  by_cases h :
      (st.chatHistory ++ [(⟨query, response, now⟩ : ChatHistoryEntry)]).length
        > 50
  · simp only [if_pos h]
    simp [List.length_append]
  · simp only [if_neg h]
    have h0 : st.chatHistory.length + 1 - 50 = 0 := by
      simp [List.length_append] at h
      omega
    simp [h0]

/-- The stored length after `saveChatHistory` is `min (previous + 1) 50`. -/
theorem saveChatHistory_length (st : AppState) (query response now : String) :
    (saveChatHistory st query response now).chatHistory.length =
      min (st.chatHistory.length + 1) 50 := by
  rw [saveChatHistory_chatHistory, List.length_drop]
  simp only [List.length_append, List.length_cons, List.length_nil]
  omega

/-- C3: `saveChatHistory` appends exactly one entry; the stored length is
`min (previous + 1) 50`; when the cap binds, it is the oldest entries that
are dropped (the result is a suffix of `previous ++ [new]`); the stored
count never exceeds 50, and the persisted key holds exactly the in-memory
sequence. -/
theorem C3_history_cap (st : AppState) (query response now : String) :
    (saveChatHistory st query response now).chatHistory =
      (st.chatHistory ++ [(⟨query, response, now⟩ : ChatHistoryEntry)]).drop
        (st.chatHistory.length + 1 - 50) ∧
    (saveChatHistory st query response now).chatHistory.length =
      min (st.chatHistory.length + 1) 50 ∧
    (saveChatHistory st query response now).chatHistory.length ≤ 50 ∧
    (saveChatHistory st query response now).localStore.medai_chat_history =
      some (saveChatHistory st query response now).chatHistory := by
  refine ⟨saveChatHistory_chatHistory st query response now,
    saveChatHistory_length st query response now, ?_, ?_⟩
  · rw [saveChatHistory_length]
    omega
  · rfl

/-- C10: starting a new chat clears the in-memory history and removes the
persisted history key, while the current user and the persisted identity
record are untouched. -/
theorem C10_new_chat_frame (st : AppState) :
    (startNewChat st).chatHistory = [] ∧
    (startNewChat st).localStore.medai_chat_history = none ∧
    (startNewChat st).currentUser = st.currentUser ∧
    (startNewChat st).localStore.medai_user = st.localStore.medai_user :=
  ⟨rfl, rfl, rfl, rfl⟩

/-- C9: `loadUserData` adopts a persisted chat history of any length
verbatim — the 50-entry cap is not enforced on load — so the in-memory
count can exceed 50 until the next `saveChatHistory` re-caps it at 50. -/
theorem C9_load_unchecked (st : AppState) (h : List ChatHistoryEntry)
    (query response now : String)
    (hs : st.localStore.medai_chat_history = some h)
    (hgt : h.length > 50) :
    (loadUserData st).chatHistory = h ∧
    (loadUserData st).chatHistory.length > 50 ∧
    (saveChatHistory (loadUserData st) query response now).chatHistory.length
      = 50 := by
  have hload : (loadUserData st).chatHistory = h := by
    unfold loadUserData
    cases hcu : st.localStore.medai_user <;> simp [hcu, hs]
  refine ⟨hload, ?_, ?_⟩
  · rw [hload]
    exact hgt
  · rw [saveChatHistory_length, hload]
    omega

/-- A concrete over-long persisted history (51 identical entries). -/
def wEntry : ChatHistoryEntry := ⟨"q", "r", "t"⟩

/-- 51 persisted entries, one more than the cap. -/
def wLongHistory : List ChatHistoryEntry := List.replicate 51 wEntry

/-- A state whose durable storage holds 51 chat entries. -/
def wStateLong : AppState :=
  { wStateIdle with localStore := ⟨none, some wLongHistory⟩ }

/-- Witness for C9 on a 51-entry persisted history. -/
theorem C9_load_unchecked_witness :
    (loadUserData wStateLong).chatHistory = wLongHistory ∧
    (loadUserData wStateLong).chatHistory.length > 50 ∧
    (saveChatHistory (loadUserData wStateLong) "q2" "r2" "t2").chatHistory.length
      = 50 :=
  C9_load_unchecked wStateLong wLongHistory "q2" "r2" "t2" rfl (by decide)

/-- C7: every omitted or non-numeric numeric form field is submitted with
its documented default (age 30, bmi 25, glucose 100, blood_pressure 120,
diabetes_pedigree 0.5, pregnancies 0, skin_thickness 20, insulin 80), an
omitted gender as "unknown", and omitted lifestyle/symptoms as their fixed
placeholder strings; and the payload `submitPredictionForm` sends to
`POST /predict` is exactly the one so built. -/
theorem C7_form_defaults (uid : Int) (f : FormDataModel) (st : AppState)
    (o : Oracle) :
    (f.age = none → (buildPredictionData uid f).demographics.age = 30) ∧
    (f.gender = none →
      (buildPredictionData uid f).demographics.gender = "unknown") ∧
    (f.lifestyle = none →
      (buildPredictionData uid f).lifestyle = "Not specified") ∧
    (f.symptoms = none →
      (buildPredictionData uid f).symptoms = "No symptoms reported") ∧
    (f.bmi = none → (buildPredictionData uid f).vitals.bmi = 25) ∧
    (f.glucose = none → (buildPredictionData uid f).vitals.glucose = 100) ∧
    (f.blood_pressure = none →
      (buildPredictionData uid f).vitals.blood_pressure = 120) ∧
    (f.diabetes_pedigree = none →
      (buildPredictionData uid f).vitals.diabetes_pedigree = 0.5) ∧
    (f.pregnancies = none →
      (buildPredictionData uid f).vitals.pregnancies = 0) ∧
    (f.skin_thickness = none →
      (buildPredictionData uid f).vitals.skin_thickness = 20) ∧
    (f.insulin = none → (buildPredictionData uid f).vitals.insulin = 80) ∧
    Call.predict (buildPredictionData (currentUserId (ensureUser st o)) f) ∈
      (submitPredictionForm st f o).calls := by
  refine ⟨?_, ?_, ?_, ?_, ?_, ?_, ?_, ?_, ?_, ?_, ?_, ?_⟩
  · intro h; simp [buildPredictionData, jsOrInt, h]
  · intro h; simp [buildPredictionData, jsOrStr, h]
  · intro h; simp [buildPredictionData, jsOrStr, h]
  · intro h; simp [buildPredictionData, jsOrStr, h]
  · intro h; simp [buildPredictionData, jsOrRat, h]
  · intro h; simp [buildPredictionData, jsOrInt, h]
  · intro h; simp [buildPredictionData, jsOrInt, h]
  · intro h; simp [buildPredictionData, jsOrRat, h]
  · intro h; simp [buildPredictionData, jsOrInt, h]
  · intro h; simp [buildPredictionData, jsOrRat, h]
  · intro h; simp [buildPredictionData, jsOrInt, h]
  · cases hp : o.predictResponse <;>
      simp [submitPredictionForm, hp, hideLoading, showToast, addMessage,
        logCall, showLoading]

/-- Witness for C7 on the all-absent form. -/
theorem C7_form_defaults_witness :
    (buildPredictionData 1 wFormNone).demographics.age = 30 ∧
    (buildPredictionData 1 wFormNone).demographics.gender = "unknown" ∧
    (buildPredictionData 1 wFormNone).lifestyle = "Not specified" ∧
    (buildPredictionData 1 wFormNone).symptoms = "No symptoms reported" ∧
    (buildPredictionData 1 wFormNone).vitals.bmi = 25 ∧
    (buildPredictionData 1 wFormNone).vitals.glucose = 100 ∧
    (buildPredictionData 1 wFormNone).vitals.blood_pressure = 120 ∧
    (buildPredictionData 1 wFormNone).vitals.diabetes_pedigree = 0.5 ∧
    (buildPredictionData 1 wFormNone).vitals.pregnancies = 0 ∧
    (buildPredictionData 1 wFormNone).vitals.skin_thickness = 20 ∧
    (buildPredictionData 1 wFormNone).vitals.insulin = 80 ∧
    Call.predict
        (buildPredictionData (currentUserId (ensureUser wState wOracle))
          wFormNone) ∈
      (submitPredictionForm wState wFormNone wOracle).calls := by
  obtain ⟨h1, h2, h3, h4, h5, h6, h7, h8, h9, h10, h11, h12⟩ :=
    C7_form_defaults 1 wFormNone wState wOracle
  exact ⟨h1 rfl, h2 rfl, h3 rfl, h4 rfl, h5 rfl, h6 rfl, h7 rfl, h8 rfl,
    h9 rfl, h10 rfl, h11 rfl, h12⟩

/-- C8: a numeric field explicitly entered as 0 is also replaced by its
documented default, because JavaScript `||` treats 0 as falsy. -/
theorem C8_zero_is_defaulted (uid : Int) (f : FormDataModel) :
    (f.age = some 0 → (buildPredictionData uid f).demographics.age = 30) ∧
    (f.bmi = some 0 → (buildPredictionData uid f).vitals.bmi = 25) ∧
    (f.glucose = some 0 →
      (buildPredictionData uid f).vitals.glucose = 100) ∧
    (f.blood_pressure = some 0 →
      (buildPredictionData uid f).vitals.blood_pressure = 120) ∧
    (f.diabetes_pedigree = some 0 →
      (buildPredictionData uid f).vitals.diabetes_pedigree = 0.5) ∧
    (f.pregnancies = some 0 →
      (buildPredictionData uid f).vitals.pregnancies = 0) ∧
    (f.skin_thickness = some 0 →
      (buildPredictionData uid f).vitals.skin_thickness = 20) ∧
    (f.insulin = some 0 → (buildPredictionData uid f).vitals.insulin = 80) := by
  refine ⟨?_, ?_, ?_, ?_, ?_, ?_, ?_, ?_⟩ <;>
    · intro h
      simp [buildPredictionData, jsOrInt, jsOrRat, h]

/-- A prediction form with every numeric field explicitly 0. -/
def wFormZero : FormDataModel :=
  ⟨some 0, none, none, none, some 0, some 0, some 0, some 0, some 0, some 0,
   some 0⟩

/-- Witness for C8 on the all-zero form. -/
theorem C8_zero_is_defaulted_witness :
    (buildPredictionData 1 wFormZero).demographics.age = 30 ∧
    (buildPredictionData 1 wFormZero).vitals.bmi = 25 ∧
    (buildPredictionData 1 wFormZero).vitals.glucose = 100 ∧
    (buildPredictionData 1 wFormZero).vitals.blood_pressure = 120 ∧
    (buildPredictionData 1 wFormZero).vitals.diabetes_pedigree = 0.5 ∧
    (buildPredictionData 1 wFormZero).vitals.pregnancies = 0 ∧
    (buildPredictionData 1 wFormZero).vitals.skin_thickness = 20 ∧
    (buildPredictionData 1 wFormZero).vitals.insulin = 80 := by
  obtain ⟨h1, h2, h3, h4, h5, h6, h7, h8⟩ := C8_zero_is_defaulted 1 wFormZero
  exact ⟨h1 rfl, h2 rfl, h3 rfl, h4 rfl, h5 rfl, h6 rfl, h7 rfl, h8 rfl⟩

/-- C5: a non-PDF selection or an over-10 MiB selection is rejected at
selection time with its specific toast and a cleared input, after which
report analysis issues zero backend calls; a missing file is rejected by
`analyzeReport` itself with its own toast and zero backend calls; a PDF of
exactly 10 MiB passes validation and is kept. -/
theorem C5_report_validation (st : AppState) (f : FileModel) (o : Oracle) :
    (f.type ≠ "application/pdf" →
      (handleFileSelect st (some f)).selectedFile = none ∧
      (handleFileSelect st (some f)).toasts =
        st.toasts ++ [(⟨"Please select a PDF file", ToastType.error⟩ : Toast)] ∧
      (handleFileSelect st (some f)).calls = st.calls ∧
      (analyzeReport (handleFileSelect st (some f)) o).calls = st.calls) ∧
    (f.type = "application/pdf" → f.size > 10 * 1024 * 1024 →
      (handleFileSelect st (some f)).selectedFile = none ∧
      (handleFileSelect st (some f)).toasts =
        st.toasts ++
          [(⟨"File too large. Please select a file under 10MB.",
             ToastType.error⟩ : Toast)] ∧
      (handleFileSelect st (some f)).calls = st.calls ∧
      (analyzeReport (handleFileSelect st (some f)) o).calls = st.calls) ∧
    (st.selectedFile = none →
      (analyzeReport st o).calls = st.calls ∧
      (analyzeReport st o).toasts =
        st.toasts ++
          [(⟨"Please select a PDF file first", ToastType.error⟩ : Toast)]) ∧
    (f.type = "application/pdf" → f.size ≤ 10 * 1024 * 1024 →
      handleFileSelect st (some f) = { st with selectedFile := some f }) := by
  refine ⟨?_, ?_, ?_, ?_⟩
  · intro h
    refine ⟨?_, ?_, ?_, ?_⟩ <;>
      simp [handleFileSelect, h, clearFile, showToast, analyzeReport]
  · intro h hs
    refine ⟨?_, ?_, ?_, ?_⟩ <;>
      simp [handleFileSelect, h, hs, clearFile, showToast, analyzeReport]
  · intro h
    refine ⟨?_, ?_⟩ <;> simp [analyzeReport, h, showToast]
  · intro h hs
    have hns : ¬ (f.size > 10 * 1024 * 1024) := by omega
    simp [handleFileSelect, h, hns]

/-- A non-PDF selection. -/
def wTxtFile : FileModel := ⟨"notes.txt", "text/plain", 5⟩

/-- An oversize PDF selection (one byte above the cap). -/
def wBigFile : FileModel := ⟨"big.pdf", "application/pdf", 10 * 1024 * 1024 + 1⟩

/-- A PDF selection of exactly 10 MiB. -/
def wMaxFile : FileModel := ⟨"max.pdf", "application/pdf", 10 * 1024 * 1024⟩

/-- Witness for C5 on concrete wrong-type, oversize, missing and
boundary-size files. -/
theorem C5_report_validation_witness :
    ((handleFileSelect wState (some wTxtFile)).selectedFile = none ∧
      (handleFileSelect wState (some wTxtFile)).toasts =
        wState.toasts ++
          [(⟨"Please select a PDF file", ToastType.error⟩ : Toast)] ∧
      (handleFileSelect wState (some wTxtFile)).calls = wState.calls ∧
      (analyzeReport (handleFileSelect wState (some wTxtFile)) wOracle).calls =
        wState.calls) ∧
    ((handleFileSelect wState (some wBigFile)).selectedFile = none ∧
      (handleFileSelect wState (some wBigFile)).toasts =
        wState.toasts ++
          [(⟨"File too large. Please select a file under 10MB.",
             ToastType.error⟩ : Toast)] ∧
      (handleFileSelect wState (some wBigFile)).calls = wState.calls ∧
      (analyzeReport (handleFileSelect wState (some wBigFile)) wOracle).calls =
        wState.calls) ∧
    ((analyzeReport wStateIdle wOracle).calls = wStateIdle.calls ∧
      (analyzeReport wStateIdle wOracle).toasts =
        wStateIdle.toasts ++
          [(⟨"Please select a PDF file first", ToastType.error⟩ : Toast)]) ∧
    handleFileSelect wState (some wMaxFile) =
      { wState with selectedFile := some wMaxFile } :=
  ⟨(C5_report_validation wState wTxtFile wOracle).1 (by decide),
   (C5_report_validation wState wBigFile wOracle).2.1 rfl (by decide),
   (C5_report_validation wStateIdle wTxtFile wOracle).2.2.1 rfl,
   (C5_report_validation wState wMaxFile wOracle).2.2.2 rfl (by decide)⟩

/-- When an identity exists, a failing chat backend makes `callGeminiAPI`
log the request and throw. -/
theorem callGeminiAPI_fail (st : AppState) (q : String)
    (hu : ∃ u, st.currentUser = some u) :
    callGeminiAPI st q ChatResult.fail =
      (logCall st (Call.chat q), Except.error "API request failed") := by
  obtain ⟨u, hu⟩ := hu
  simp [callGeminiAPI, hu]

/-- C4: for every non-blank message, if the chat call fails, the transcript
gains the user entry followed by exactly one generic-apology assistant
entry, an error toast is surfaced, and the stored chat history is
unchanged. -/
theorem C4_chat_failure (st : AppState) (o : Oracle)
    (hm : jsTrim st.messageInputValue ≠ "")
    (hc : o.chatResponse = ChatResult.fail) :
    (sendMessage st o).transcript =
      st.transcript ++
        [(⟨jsTrim st.messageInputValue, MsgType.user⟩ : TranscriptEntry),
         (⟨"Sorry, I encountered an error. Please try again.",
           MsgType.bot⟩ : TranscriptEntry)] ∧
    (sendMessage st o).chatHistory = st.chatHistory ∧
    (⟨"Error sending message. Please try again.", ToastType.error⟩ : Toast) ∈
      (sendMessage st o).toasts := by
  refine ⟨?_, ?_, ?_⟩ <;>
    · simp only [sendMessage, if_neg hm, hc]
      rw [callGeminiAPI_fail _ _ (ensureUser_currentUser_isSome _ o)]
      simp [addMessage, showToast, logCall, ensureUser_transcript,
        ensureUser_chatHistory]

/-- Witness for C4: a concrete non-blank message against a rejecting chat
backend. -/
theorem C4_chat_failure_witness :
    (sendMessage wState wOracle).transcript =
      wState.transcript ++
        [(⟨jsTrim wState.messageInputValue, MsgType.user⟩ : TranscriptEntry),
         (⟨"Sorry, I encountered an error. Please try again.",
           MsgType.bot⟩ : TranscriptEntry)] ∧
    (sendMessage wState wOracle).chatHistory = wState.chatHistory ∧
    (⟨"Error sending message. Please try again.", ToastType.error⟩ : Toast) ∈
      (sendMessage wState wOracle).toasts :=
  C4_chat_failure wState wOracle (by decide) rfl

/-- C6: when all three history lookups yield no identifier, `generateReport`
issues no call to `POST /generate-report` and instead renders the locally
synthesized summary (heading, truncated past queries, fixed advice) from the
in-memory chat history into the transcript, with its toast. -/
theorem C6_local_fallback (st : AppState) (o : Oracle)
    (hp : latestId o.predictionsHistory = none)
    (hc : latestId o.chatsHistory = none)
    (hr : latestId o.reportsHistory = none) :
    (generateReport st o).calls.count Call.generateReport =
      st.calls.count Call.generateReport ∧
    (generateReport st o).transcript =
      st.transcript ++
        [(⟨fallbackReportMessage st.chatHistory, MsgType.bot⟩ :
          TranscriptEntry)] ∧
    (⟨"Health summary created based on our conversation",
      ToastType.success⟩ : Toast) ∈ (generateReport st o).toasts := by
  have hcount := ensureUser_calls_count st o Call.generateReport rfl
  refine ⟨?_, ?_, ?_⟩ <;>
    · simp only [generateReport, hp, hc, hr, jsFalsyId]
      simp [createFallbackReport, addMessage, showToast, hideLoading,
        logCall, showLoading, ensureUser_transcript, ensureUser_chatHistory,
        List.count_append, hcount]

/-- Witness for C6: all three lookups fail outright. -/
theorem C6_local_fallback_witness :
    (generateReport wState wOracle).calls.count Call.generateReport =
      wState.calls.count Call.generateReport ∧
    (generateReport wState wOracle).transcript =
      wState.transcript ++
        [(⟨fallbackReportMessage wState.chatHistory, MsgType.bot⟩ :
          TranscriptEntry)] ∧
    (⟨"Health summary created based on our conversation",
      ToastType.success⟩ : Toast) ∈ (generateReport wState wOracle).toasts :=
  C6_local_fallback wState wOracle rfl rfl rfl

/-- The regenerated retry email is never the empty string, so the retry
request carries it verbatim. -/
theorem retryEmail_ne_empty (t : Nat) :
    s!"guest-{t}-retry@example.com" ≠ "" := by
  intro h
  have hl := congrArg String.length h
  simp [String.length_append] at hl
  exact absurd hl.1.1 (by decide)

/-- C2 counterexample: script the backend to answer the initial request and
the first retry both with `400 {detail: "Email already registered"}` and
the second retry with success.  `createUser` then issues three
`POST /users` requests — two duplicate-triggered retries — refuting that a
duplicate-identity error is retried exactly once with no further
duplicate-identity retries. -/
theorem C2_retry_counterexample :
    ((createUser wStateIdle
        [CreateUserResult.dupEmail, CreateUserResult.dupEmail,
         CreateUserResult.ok wUser]
        [100, 200, 300] 7 "Guest User" "guest@example.com").2.calls.countP
      fun c => c.isUsers) = 3 ∧ (3 : Nat) ≠ 2 := by
  constructor
  · rfl
  · decide

/-- C2 (amended): on a duplicate-identity 400 the controller retries with
the regenerated address `guest-<time>-retry@example.com`; when that first
retry succeeds, exactly two identity-creation requests were issued in
total, the retried user is adopted, and no error is surfaced (the only
notification added is the success toast).  The retry is recursive rather
than capped at one: each duplicate response consumes exactly one request
and recurses on the remaining backend responses. -/
theorem C2_retry_amended (st : AppState) (clock : List Nat) (mockId : Int)
    (name email : String) (u : User) (rest : List CreateUserResult) :
    (createUser st [CreateUserResult.dupEmail, CreateUserResult.ok u] clock
        mockId name email).2.calls =
      st.calls ++
        [Call.users
          (if email = "" then s!"guest-{clock.headD 0}@example.com"
           else email),
         Call.users s!"guest-{clock.headD 0}-retry@example.com"] ∧
    (createUser st [CreateUserResult.dupEmail, CreateUserResult.ok u] clock
        mockId name email).1 = u ∧
    (createUser st [CreateUserResult.dupEmail, CreateUserResult.ok u] clock
        mockId name email).2.toasts =
      st.toasts ++
        [(⟨"User profile created successfully!", ToastType.success⟩ :
          Toast)] ∧
    createUser st (CreateUserResult.dupEmail :: rest) clock mockId name
        email =
      createUser
        (logCall st (Call.users
          (if email = "" then s!"guest-{clock.headD 0}@example.com"
           else email)))
        rest clock.tail mockId
        (if name = "" then "Guest User" else name)
        s!"guest-{clock.headD 0}-retry@example.com" := by
  refine ⟨?_, ?_, ?_, rfl⟩ <;>
    simp [createUser, logCall, showToast, retryEmail_ne_empty]
